import Mathlib

/-!
# Ogg Vorbis metadata reader/writer

A shallow embedding of `Metadata/OggVorbisMetadata.cpp`: the format detector
(`HandlesFilesWithExtension`, `HandlesMIMEType`), the two base64 helpers built on the
OpenSSL base64 filter, and the `ReadMetadata` / `WriteMetadata` methods, followed by
the properties established about them.

Conventions of the embedding:
* a byte vector (`TagLib::ByteVector`) is a list of naturals below 256;
* a `CFStringRef` is a Lean `String`;
* a `CFMutableDictionaryRef` is an association list without duplicate keys;
* the `CFErrorRef *` out-parameter is a flag saying whether the pointer is non-null,
  and the methods return the error object they stored through it, if any;
* functions and constants that the file only calls (CoreFoundation services, the
  TagLib file object, the helpers declared in the headers it includes) are fields of
  the record `Externals`.
-/

namespace OggVorbisMetadata

/-! ## Format detector -/

/-- Result type of `CFStringCompare`. -/
inductive CFComparisonResult where
  | kCFCompareLessThan
  | kCFCompareEqualTo
  | kCFCompareGreaterThan
  deriving DecidableEq, Repr

/-- Letter-case folding used by the case-insensitive comparison: the simple mapping of
`A`-`Z` to `a`-`z`, every other character being kept. -/
def foldCase (c : Char) : Char := c.toLower

/-- Lexicographic comparison of two character sequences after case folding. -/
def compareFolded : List Char → List Char → CFComparisonResult
  | [], [] => .kCFCompareEqualTo
  | [], _ :: _ => .kCFCompareLessThan
  | _ :: _, [] => .kCFCompareGreaterThan
  | a :: as, b :: bs =>
    if foldCase a < foldCase b then .kCFCompareLessThan
    else if foldCase b < foldCase a then .kCFCompareGreaterThan
    else compareFolded as bs

/-- The CoreFoundation call `CFStringCompare(a, b, kCFCompareCaseInsensitive)`. -/
def CFStringCompareCaseInsensitive (a b : String) : CFComparisonResult :=
  compareFolded a.data b.data

/-- Equality of two strings ignoring letter case. -/
def equalsIgnoringCase (a b : String) : Prop :=
  a.data.map foldCase = b.data.map foldCase

instance (a b : String) : Decidable (equalsIgnoringCase a b) :=
  inferInstanceAs (Decidable (a.data.map foldCase = b.data.map foldCase))

/-- The array built by `OggVorbisMetadata::CreateSupportedFileExtensions`. -/
def CreateSupportedFileExtensions : List String := ["ogg", "oga"]

/-- The array built by `OggVorbisMetadata::CreateSupportedMIMETypes`. -/
def CreateSupportedMIMETypes : List String := ["audio/ogg-vorbis"]

/-- The method `OggVorbisMetadata::HandlesFilesWithExtension`. -/
def HandlesFilesWithExtension (extension : String) : Bool :=
  if CFComparisonResult.kCFCompareEqualTo = CFStringCompareCaseInsensitive extension "ogg" then
    true
  else if CFComparisonResult.kCFCompareEqualTo = CFStringCompareCaseInsensitive extension "oga" then
    true
  else
    false

/-- The method `OggVorbisMetadata::HandlesMIMEType`. -/
def HandlesMIMEType (mimeType : String) : Bool :=
  if CFComparisonResult.kCFCompareEqualTo =
      CFStringCompareCaseInsensitive mimeType "audio/ogg-vorbis" then
    true
  else
    false

/-! ## Base64 utilities (OpenSSL base64 filter with `BIO_FLAGS_BASE64_NO_NL`) -/

/-- A `TagLib::ByteVector`: a sequence of bytes, each a natural number below 256. -/
abbrev ByteVector := List Nat

/-- Block size of the OpenSSL base64 filter (`B64_BLOCK_SIZE`). -/
def B64_BLOCK_SIZE : Nat := 1024

/-- The OpenSSL table `data_bin2ascii`: `A`-`Z`, `a`-`z`, `0`-`9`, `+`, `/`. -/
def data_bin2ascii : List Nat :=
  (List.range 26).map (fun i => 65 + i) ++ (List.range 26).map (fun i => 97 + i) ++
    (List.range 10).map (fun i => 48 + i) ++ [43, 47]

/-- The OpenSSL accessor `conv_bin2ascii(a)`, that is `data_bin2ascii[a & 0x3f]`. -/
def conv_bin2ascii (a : Nat) : Nat := data_bin2ascii.getD (a % 64) 0

/-- The OpenSSL accessor `conv_ascii2bin(a)` as in OpenSSL up to 1.0.x, the releases of
the time of the source, that is `data_ascii2bin[a & 0x7f]` (from 1.1.0 on a byte with the
high bit set is an error instead of being masked; the two agree on every ASCII byte):
`0xE0` for blank and tab, `0xF0` for line feed, `0xF1` for carriage return, `0xF2` for `-`,
`0x00` for `=`, the 6-bit value for a character of the alphabet and `0xFF` otherwise. -/
def conv_ascii2bin (a : Nat) : Nat :=
  let c := a % 128
  if c = 9 ∨ c = 32 then 0xE0
  else if c = 10 then 0xF0
  else if c = 13 then 0xF1
  else if c = 45 then 0xF2
  else if c = 61 then 0x00
  else if c = 43 then 0x3E
  else if c = 47 then 0x3F
  else if 48 ≤ c ∧ c ≤ 57 then c - 48 + 52
  else if 65 ≤ c ∧ c ≤ 90 then c - 65
  else if 97 ≤ c ∧ c ≤ 122 then c - 97 + 26
  else 0xFF

/-- The OpenSSL test `B64_NOT_BASE64(a)`, that is `(a | 0x13) == 0xF3`: true of the
table values `0xE0`, `0xF0`, `0xF1` and `0xF2`. -/
def B64_NOT_BASE64 (a : Nat) : Bool := a = 0xE0 || a = 0xF0 || a = 0xF1 || a = 0xF2

/-- The OpenSSL function `EVP_EncodeBlock`: three input bytes give four characters; a
final group of one or two bytes is padded with `=`. -/
def EVP_EncodeBlock : ByteVector → ByteVector
  | [] => []
  | [f0] =>
    let l := f0 * 65536
    [conv_bin2ascii (l / 262144), conv_bin2ascii (l / 4096), 61, 61]
  | [f0, f1] =>
    let l := f0 * 65536 + f1 * 256
    [conv_bin2ascii (l / 262144), conv_bin2ascii (l / 4096), conv_bin2ascii (l / 64), 61]
  | f0 :: f1 :: f2 :: rest =>
    let l := f0 * 65536 + f1 * 256 + f2
    conv_bin2ascii (l / 262144) :: conv_bin2ascii (l / 4096) :: conv_bin2ascii (l / 64) ::
      conv_bin2ascii l :: EVP_EncodeBlock rest

/-- The write side of the base64 filter, `b64_write` with `BIO_FLAGS_BASE64_NO_NL`, as a
loop over the input still to be consumed. The state is the bytes held back in `ctx->tmp`
and the bytes already passed to the next (memory) BIO; the result is that state when the
loop is left. Each round consumes at least one byte, so `fuel` at least the input length
runs the loop to its end. -/
def b64_write : Nat → ByteVector → ByteVector → ByteVector → ByteVector × ByteVector
  | 0, tmp, _, mem => (tmp, mem)
  | fuel + 1, tmp, inp, mem =>
    if inp.length = 0 then (tmp, mem)
    else
      let n := if inp.length > B64_BLOCK_SIZE then B64_BLOCK_SIZE else inp.length
      if tmp.length > 0 then
        let n := if 3 - tmp.length > inp.length then inp.length else 3 - tmp.length
        let tmp := tmp ++ inp.take n
        if tmp.length < 3 then (tmp, mem)
        else b64_write fuel [] (inp.drop n) (mem ++ EVP_EncodeBlock tmp)
      else if n < 3 then (inp.take n, mem)
      else
        let n := n - n % 3
        b64_write fuel [] (inp.drop n) (mem ++ EVP_EncodeBlock (inp.take n))

/-- The function `EncodeBase64` of the source: one `BIO_write` of the whole input through
a fresh base64 filter pushed on a memory BIO, then `BIO_get_mem_data` on the chain; the
result is the content of the memory BIO at that point (the filter is freed without a
`BIO_flush`, so what it still holds in `ctx->tmp` is not part of the result). -/
def EncodeBase64 (input : ByteVector) : ByteVector :=
  (b64_write (input.length + 1) [] input []).2

/-- The OpenSSL function `EVP_DecodeBlock` after its trimming steps: groups of four
characters give three bytes; `none` stands for the return value `-1`. -/
def decodeGroups : ByteVector → Option ByteVector
  | f0 :: f1 :: f2 :: f3 :: rest =>
    let a := conv_ascii2bin f0
    let b := conv_ascii2bin f1
    let c := conv_ascii2bin f2
    let d := conv_ascii2bin f3
    if a ≥ 128 ∨ b ≥ 128 ∨ c ≥ 128 ∨ d ≥ 128 then none
    else
      let l := a * 262144 + b * 4096 + c * 64 + d
      match decodeGroups rest with
      | none => none
      | some out => some ((l / 65536) % 256 :: (l / 256) % 256 :: l % 256 :: out)
  | [] => some []
  | _ => none

/-- Trimming of trailing characters in `EVP_DecodeBlock`: while more than three characters
are left and the last one is not a base64 character, drop it. The argument is the input
reversed. -/
def trimEnd : ByteVector → ByteVector
  | [] => []
  | c :: rest =>
    if (c :: rest).length > 3 ∧ B64_NOT_BASE64 (conv_ascii2bin c) = true then trimEnd rest
    else c :: rest

/-- The OpenSSL function `EVP_DecodeBlock`: leading white space is skipped, trailing
non-base64 characters are dropped, and the rest is decoded in groups of four. -/
def EVP_DecodeBlock (f : ByteVector) : Option ByteVector :=
  let f := f.dropWhile (fun c => conv_ascii2bin c = 0xE0)
  decodeGroups (trimEnd f.reverse).reverse

/-- One round of the read side of the filter (`b64_read` with `BIO_FLAGS_BASE64_NO_NL`) on
the `i` characters obtained from the source BIO: the first `i & ~3` of them are decoded
and one or two bytes are taken off the count for `=` at the end. The result is the bytes
made available, or `none` when the count is not positive. -/
def b64_read_block (tmp : ByteVector) : Option ByteVector :=
  let jj := tmp.length - tmp.length % 4
  match EVP_DecodeBlock (tmp.take jj) with
  | none => none
  | some buf =>
    let z := buf.length
    let z :=
      if jj > 2 then
        if tmp.getD (jj - 1) 0 = 61 then
          if tmp.getD (jj - 2) 0 = 61 then z - 2 else z - 1
        else z
      else z
    if z > 0 then some (buf.take z) else none

/-- The bytes delivered by successive `BIO_read` calls on a base64 filter pushed on a
read-only memory BIO holding `src`: the source is consumed in blocks of `B64_BLOCK_SIZE`
characters, each block is decoded by `b64_read_block`, and reading ends at the end of the
source or at the first block that makes no byte available. -/
def b64_read : Nat → ByteVector → ByteVector
  | 0, _ => []
  | fuel + 1, src =>
    if src.length = 0 then []
    else
      match b64_read_block (src.take B64_BLOCK_SIZE) with
      | none => []
      | some out => out ++ b64_read fuel (src.drop B64_BLOCK_SIZE)

/-- The function `DecodeBase64` of the source: the results of `BIO_read` on the filter
chain are appended until a call returns no byte. -/
def DecodeBase64 (input : ByteVector) : ByteVector :=
  b64_read (input.length + 1) input

/-! ### Reference encoding

The encoding the base64 helpers are compared with, written from RFC 4648 and not from the
source. -/

/-- The bits of a byte, most significant first. -/
def bitsOfByte (b : Nat) : List Bool :=
  (List.range 8).map (fun i => (b / 2 ^ (7 - i)) % 2 = 1)

/-- The number written by a sequence of bits, most significant first. -/
def valueOfBits (bits : List Bool) : Nat :=
  bits.foldl (fun acc b => 2 * acc + (if b then 1 else 0)) 0

/-- The 6-bit groups of a bit sequence; zero bits are added on the right of a last group
of fewer than six bits. -/
def sextets : List Bool → List Nat
  | [] => []
  | b0 :: b1 :: b2 :: b3 :: b4 :: b5 :: rest =>
    valueOfBits [b0, b1, b2, b3, b4, b5] :: sextets rest
  | last => [valueOfBits (last ++ List.replicate (6 - last.length) false)]

/-- The base64 alphabet of RFC 4648, table 1. -/
def base64Alphabet : List Char :=
  "ABCDEFGHIJKLMNOPQRSTUVWXYZabcdefghijklmnopqrstuvwxyz0123456789+/".data

/-- The padded base64 encoding of RFC 4648, section 4, written from the text of the RFC:
the input bits are cut in 6-bit groups, each group is written as a character of the
alphabet, and `=` characters bring the output to a multiple of four characters. -/
def rfc4648Encode (input : ByteVector) : ByteVector :=
  let chars :=
    (sextets (input.flatMap bitsOfByte)).map (fun v => (base64Alphabet.getD v 'A').toNat)
  chars ++ List.replicate ((4 - chars.length % 4) % 4) 61

/-! ### Alphabet membership -/

/-- Every character of the list is a character of the base64 alphabet. -/
def allAlphabet (cs : ByteVector) : Prop := ∀ c ∈ cs, ∃ v, c = conv_bin2ascii v

/-! ## TagLib values used by the reader -/

/-- The bytes of `TagLib::String::data(TagLib::String::UTF8)` for one code point. -/
def utf8Bytes (c : Nat) : ByteVector :=
  if c < 0x80 then [c]
  else if c < 0x800 then [0xC0 + c / 0x40, 0x80 + c % 0x40]
  else if c < 0x10000 then [0xE0 + c / 0x1000, 0x80 + (c / 0x40) % 0x40, 0x80 + c % 0x40]
  else [0xF0 + c / 0x40000, 0x80 + (c / 0x1000) % 0x40, 0x80 + (c / 0x40) % 0x40,
    0x80 + c % 0x40]

/-- The call `s.data(TagLib::String::UTF8)`. -/
def dataUTF8 (s : String) : ByteVector := s.data.flatMap (fun c => utf8Bytes c.toNat)

/-- A `TagLib::Ogg::XiphComment`: the vendor string and the field list map, from field
name to the list of values of that field. -/
structure XiphComment where
  vendorID : String
  fieldListMap : List (String × List String)
  deriving DecidableEq, Repr

/-- The call `tag->contains(key)`: the field list map has an entry for the key. -/
def XiphComment.contains (tag : XiphComment) (key : String) : Bool :=
  (tag.fieldListMap.lookup key).isSome

/-- The expression `tag->fieldListMap()[key]`: the values of the field, the empty list
when the map has no entry. -/
def XiphComment.fieldList (tag : XiphComment) (key : String) : List String :=
  (tag.fieldListMap.lookup key).getD []

/-- A `TagLib::FLAC::Picture`. -/
structure Picture where
  type : Nat
  mimeType : ByteVector
  description : ByteVector
  width : Nat
  height : Nat
  colorDepth : Nat
  numColors : Nat
  data : ByteVector
  deriving DecidableEq, Repr

/-- A freshly constructed `TagLib::FLAC::Picture`. -/
def Picture.new : Picture :=
  { type := 0, mimeType := [], description := [], width := 0, height := 0, colorDepth := 0,
    numColors := 0, data := [] }

/-- The call `v.mid(index, length)` of `TagLib::ByteVector`. -/
def mid (v : ByteVector) (index length : Nat) : ByteVector := (v.drop index).take length

/-- Reduction of a number to the range of `unsigned int` (32 bits). -/
def uint (n : Nat) : Nat := n % 4294967296

/-- The big-endian unsigned 32-bit number in the four bytes of `v` from `pos`
(`v.mid(pos, 4).toUInt()`). -/
def toUInt (v : ByteVector) (pos : Nat) : Nat :=
  (mid v pos 4).foldl (fun acc b => uint (acc * 256 + b)) 0

/-- The TagLib method `FLAC::Picture::parse`: picture type, MIME type length and string,
description length and string, width, height, colour depth, colour count, data length and
data, all numbers big-endian on 32 bits with unsigned 32-bit arithmetic. The result is the
return value and the picture object after the call; `data` is assigned only on the path
that returns `true`. -/
def Picture.parse (p : Picture) (data : ByteVector) : Bool × Picture :=
  if data.length < 32 then (false, p)
  else
    let pos := 0
    let p := { p with type := toUInt data pos }
    let pos := pos + 4
    let mimeTypeLength := toUInt data pos
    let pos := pos + 4
    if uint (pos + mimeTypeLength + 24) > data.length then (false, p)
    else
      let p := { p with mimeType := mid data pos mimeTypeLength }
      let pos := uint (pos + mimeTypeLength)
      let descriptionLength := toUInt data pos
      let pos := uint (pos + 4)
      if uint (pos + descriptionLength + 20) > data.length then (false, p)
      else
        let p := { p with description := mid data pos descriptionLength }
        let pos := uint (pos + descriptionLength)
        let p := { p with width := toUInt data pos }
        let pos := uint (pos + 4)
        let p := { p with height := toUInt data pos }
        let pos := uint (pos + 4)
        let p := { p with colorDepth := toUInt data pos }
        let pos := uint (pos + 4)
        let p := { p with numColors := toUInt data pos }
        let pos := uint (pos + 4)
        let dataLength := toUInt data pos
        let pos := uint (pos + 4)
        if uint (pos + dataLength) > data.length then (false, p)
        else (true, { p with data := mid data pos dataLength })

/-- The number of bytes a picture record declares for itself, read from the buffer as far
as the buffer holds the fields: 32 bytes of fixed fields (type, MIME type length,
description length, width, height, colour depth, colour count, data length), plus the
declared MIME type length, plus the declared description length, plus the declared data
length. A length field that lies beyond the end of what the earlier fields declare is not
counted. -/
def requiredLength (d : ByteVector) : Nat :=
  if d.length < 32 then 32
  else if d.length < 32 + toUInt d 4 then 32 + toUInt d 4
  else if d.length < 32 + toUInt d 4 + toUInt d (8 + toUInt d 4) then
    32 + toUInt d 4 + toUInt d (8 + toUInt d 4)
  else
    32 + toUInt d 4 + toUInt d (8 + toUInt d 4) +
      toUInt d (28 + toUInt d 4 + toUInt d (8 + toUInt d 4))

/-- The audio properties of a TagLib file (`TagLib::AudioProperties`). -/
structure AudioProperties where
  length : Nat
  bitrate : Nat
  sampleRate : Nat
  channels : Nat
  deriving DecidableEq, Repr

/-- A `TagLib::Ogg::Vorbis::File` as this code uses it: whether the file is valid, its
audio properties and comment block (either may be null), and whether `save()` succeeds. -/
structure VorbisFile where
  isValid : Bool
  audioProperties : Option AudioProperties
  tag : Option XiphComment
  save : Bool
  deriving DecidableEq, Repr

/-! ## The metadata object -/

/-- Keys of the metadata dictionary. The two keys this file names are constants declared
in `AudioMetadata.h`; every other key is identified by its name. -/
inductive Key where
  | kPropertiesFormatNameKey
  | kAlbumArtFrontCoverKey
  | named (name : String)
  deriving DecidableEq, Repr

/-- Values of the metadata dictionary: strings, data objects and numbers. -/
inductive Value where
  | string (s : String)
  | data (bytes : ByteVector)
  | number (n : Int)
  deriving DecidableEq, Repr

/-- A `CFMutableDictionaryRef`: an association list with at most one entry per key. -/
abbrev CFDictionary := List (Key × Value)

/-- The call `CFDictionarySetValue(d, key, value)`: the value of an existing entry is
replaced, otherwise an entry is added. -/
def CFDictionarySetValue : CFDictionary → Key → Value → CFDictionary
  | [], key, value => [(key, value)]
  | (k, v) :: rest, key, value =>
    if k = key then (k, value) :: rest else (k, v) :: CFDictionarySetValue rest key value

/-- The call `CFDictionaryRemoveAllValues(d)`. -/
def CFDictionaryRemoveAllValues (_ : CFDictionary) : CFDictionary := []

/-- The call `CFDictionaryGetValue(d, key)`. -/
def CFDictionaryGetValue (d : CFDictionary) (key : Key) : Option Value := d.lookup key

/-- The state of an `AudioMetadata` object: its URL, the base dictionary and the
dictionary of pending changes. -/
structure AudioMetadata where
  mURL : String
  mMetadata : CFDictionary
  mChangedMetadata : CFDictionary
  deriving DecidableEq, Repr

/-- A `CFErrorRef` as created by `CFErrorCreate`: domain, code, and the three entries the
code puts in the user-info dictionary. -/
structure CFError where
  domain : String
  code : Int
  localizedDescription : String
  localizedFailureReason : String
  localizedRecoverySuggestion : String
  deriving DecidableEq, Repr

/-- What `OggVorbisMetadata.cpp` calls and does not define: CoreFoundation services, the
TagLib file constructor, and the constants and helpers declared in the headers it
includes (`AudioMetadata.h`, `CreateDisplayNameForURL.h`, `AddXiphCommentToDictionary.h`,
`SetXiphCommentFromMetadata.h`, `AddAudioPropertiesToDictionary.h`). -/
structure Externals where
  /-- The call `CFURLGetFileSystemRepresentation(url, false, buf, PATH_MAX)`: the path
  written to `buf`, or `none` when the call returns false. -/
  CFURLGetFileSystemRepresentation : String → Option String
  /-- The constructor `TagLib::Ogg::Vorbis::File(path, readProperties)`. -/
  openFile : String → Bool → VorbisFile
  CreateDisplayNameForURL : String → String
  /-- The call `CFCopyLocalizedString(key, "")`. -/
  CFCopyLocalizedString : String → String
  AudioMetadataErrorDomain : String
  AudioMetadataInputOutputError : Int
  AddAudioPropertiesToDictionary : CFDictionary → AudioProperties → CFDictionary
  AddXiphCommentToDictionary : CFDictionary → XiphComment → CFDictionary
  /-- The call `SetXiphCommentFromMetadata(*this, file.tag())`: the metadata object and
  the comment block after the call. -/
  SetXiphCommentFromMetadata :
    AudioMetadata → Option XiphComment → AudioMetadata × Option XiphComment
  MergeChangedMetadataIntoMetadata : AudioMetadata → AudioMetadata

/-- Substitution of the single argument for the first `%@` of a format. -/
def formatChars : List Char → List Char → List Char
  | [], _ => []
  | [c], _ => [c]
  | c :: d :: rest, arg =>
    if c = Char.ofNat 37 ∧ d = Char.ofNat 64 then arg ++ rest
    else c :: formatChars (d :: rest) arg

/-- The call `CFStringCreateWithFormat(kCFAllocatorDefault, NULL, format, arg)` with one
`%@` argument. -/
def CFStringCreateWithFormat (format arg : String) : String :=
  String.mk (formatChars format.data arg.data)

/-- What a call of `ReadMetadata` leaves behind: the return value, the error stored
through the out-parameter (if any) and the state of the metadata object. -/
structure ReadResult where
  ret : Bool
  error : Option CFError
  self : AudioMetadata
  deriving DecidableEq, Repr

/-- The method `OggVorbisMetadata::ReadMetadata(CFErrorRef *error)`; the argument `error`
says whether the pointer is non-null. -/
def ReadMetadata (ext : Externals) (self : AudioMetadata) (error : Bool) : ReadResult :=
  -- Start from scratch
  let self := { self with mMetadata := CFDictionaryRemoveAllValues self.mMetadata }
  let self :=
    { self with mChangedMetadata := CFDictionaryRemoveAllValues self.mChangedMetadata }
  match ext.CFURLGetFileSystemRepresentation self.mURL with
  | none => { ret := false, error := none, self := self }
  | some buf =>
    let file := ext.openFile buf true
    if !file.isValid then
      if error then
        let displayName := ext.CreateDisplayNameForURL self.mURL
        let errorString := CFStringCreateWithFormat
          (ext.CFCopyLocalizedString "The file “%@” is not a valid Ogg Vorbis file.")
          displayName
        { ret := false
          error := some
            { domain := ext.AudioMetadataErrorDomain
              code := ext.AudioMetadataInputOutputError
              localizedDescription := errorString
              localizedFailureReason := ext.CFCopyLocalizedString "Not an Ogg Vorbis file"
              localizedRecoverySuggestion :=
                ext.CFCopyLocalizedString
                  "The file\x27s extension may not match the file\x27s type." }
          self := self }
      else
        { ret := false, error := none, self := self }
    else
      let self := { self with
        mMetadata := CFDictionarySetValue self.mMetadata Key.kPropertiesFormatNameKey
          (Value.string "Ogg Vorbis") }
      let self :=
        match file.audioProperties with
        | some properties =>
          { self with
            mMetadata := ext.AddAudioPropertiesToDictionary self.mMetadata properties }
        | none => self
      let self :=
        match file.tag with
        | some tag =>
          let self := { self with mMetadata := ext.AddXiphCommentToDictionary self.mMetadata tag }
          -- Handle embedded pictures
          if tag.contains "METADATA_BLOCK_PICTURE" then
            let encodedBlocks := tag.fieldList "METADATA_BLOCK_PICTURE"
            match encodedBlocks with
            | front :: _ =>
              -- Only the first picture is handled for now
              let encodedBlock := dataUTF8 front
              -- Decode the Base-64 encoded data
              let decodedBlock := DecodeBase64 encodedBlock
              -- Create the picture
              let picture := (Picture.new.parse decodedBlock).2
              let data := Value.data picture.data
              { self with
                mMetadata := CFDictionarySetValue self.mMetadata Key.kAlbumArtFrontCoverKey data }
            | [] => self
          else self
        | none => self
      { ret := true, error := none, self := self }

/-- The calls of `WriteMetadata` that act on the container or fold the pending changes. -/
inductive Call where
  | SetXiphCommentFromMetadata
  | save
  | MergeChangedMetadataIntoMetadata
  deriving DecidableEq, Repr

/-- What a call of `WriteMetadata` leaves behind: the return value, the error stored
through the out-parameter (if any), the state of the metadata object, the comment block
of the file object, and the calls made, in order. -/
structure WriteResult where
  ret : Bool
  error : Option CFError
  self : AudioMetadata
  tag : Option XiphComment
  calls : List Call
  deriving DecidableEq, Repr

/-- The method `OggVorbisMetadata::WriteMetadata(CFErrorRef *error)`; the argument `error`
says whether the pointer is non-null. -/
def WriteMetadata (ext : Externals) (self : AudioMetadata) (error : Bool) : WriteResult :=
  match ext.CFURLGetFileSystemRepresentation self.mURL with
  | none => { ret := false, error := none, self := self, tag := none, calls := [] }
  | some buf =>
    let file := ext.openFile buf false
    if !file.isValid then
      if error then
        let displayName := ext.CreateDisplayNameForURL self.mURL
        let errorString := CFStringCreateWithFormat
          (ext.CFCopyLocalizedString "The file “%@” is not a valid Ogg Vorbis file.")
          displayName
        { ret := false
          error := some
            { domain := ext.AudioMetadataErrorDomain
              code := ext.AudioMetadataInputOutputError
              localizedDescription := errorString
              localizedFailureReason := ext.CFCopyLocalizedString "Not an Ogg Vorbis file"
              localizedRecoverySuggestion :=
                ext.CFCopyLocalizedString
                  "The file\x27s extension may not match the file\x27s type." }
          self := self, tag := file.tag, calls := [] }
      else
        { ret := false, error := none, self := self, tag := file.tag, calls := [] }
    else
      let applied := ext.SetXiphCommentFromMetadata self file.tag
      let self := applied.1
      let tag := applied.2
      if !file.save then
        if error then
          let displayName := ext.CreateDisplayNameForURL self.mURL
          let errorString := CFStringCreateWithFormat
            (ext.CFCopyLocalizedString "The file “%@” is not a valid Ogg Vorbis file.")
            displayName
          { ret := false
            error := some
              { domain := ext.AudioMetadataErrorDomain
                code := ext.AudioMetadataInputOutputError
                localizedDescription := errorString
                localizedFailureReason := ext.CFCopyLocalizedString "Unable to write metadata"
                localizedRecoverySuggestion :=
                  ext.CFCopyLocalizedString
                  "The file\x27s extension may not match the file\x27s type." }
            self := self, tag := tag
            calls := [Call.SetXiphCommentFromMetadata, Call.save] }
        else
          { ret := false, error := none, self := self, tag := tag
            calls := [Call.SetXiphCommentFromMetadata, Call.save] }
      else
        let self := ext.MergeChangedMetadataIntoMetadata self
        { ret := true, error := none, self := self, tag := tag
          calls := [Call.SetXiphCommentFromMetadata, Call.save,
            Call.MergeChangedMetadataIntoMetadata] }

/-- The base dictionary of `ReadMetadata` on a valid container before the comment block is
looked at: the format name, then the audio properties when the file has them. -/
def dictionaryBeforeTag (ext : Externals) (file : VorbisFile) : CFDictionary :=
  match file.audioProperties with
  | some properties =>
    ext.AddAudioPropertiesToDictionary
      (CFDictionarySetValue [] Key.kPropertiesFormatNameKey (Value.string "Ogg Vorbis"))
      properties
  | none => CFDictionarySetValue [] Key.kPropertiesFormatNameKey (Value.string "Ogg Vorbis")

/-! ## A sample environment

A small concrete world, used to evaluate the methods at definite inputs. -/

/-- A comment block with a title and two picture blocks; the first picture block is a
well-formed record with the two data bytes `9, 8`. -/
def sampleTag : XiphComment :=
  { vendorID := "Xiph.Org libVorbis"
    fieldListMap :=
      [("TITLE", ["Song"]),
       ("METADATA_BLOCK_PICTURE",
         ["AAAAAwAAAANpamsAAAAAAAAAAQAAAAEAAAABAAAAAQAAAAIJCA==", "AAAA"])] }

/-- A comment block whose first picture block decodes to 32 bytes that declare a MIME
type of 255 bytes. -/
def truncatedTag : XiphComment :=
  { vendorID := "Xiph.Org libVorbis"
    fieldListMap :=
      [("METADATA_BLOCK_PICTURE", ["AAAAAwAAAP8AAAAAAAAAAAAAAAAAAAAAAAAAAAAAAAA="])] }

/-- A comment block whose first picture block decodes to 37 bytes: a well-formed record
up to a data length field that declares 4294967295 bytes, followed by the two bytes
`9, 8`. -/
def wrappedTag : XiphComment :=
  { vendorID := "Xiph.Org libVorbis"
    fieldListMap :=
      [("METADATA_BLOCK_PICTURE",
         ["AAAAAwAAAANpamsAAAAAAAAAAQAAAAEAAAABAAAAAf////8JCA=="])] }

/-- A comment block without picture blocks. -/
def plainTag : XiphComment :=
  { vendorID := "Xiph.Org libVorbis", fieldListMap := [("TITLE", ["Song"])] }

/-- The path of a `file://` URL; other URLs have no file-system representation. -/
def samplePath (url : String) : Option String :=
  match url.data with
  | 'f' :: 'i' :: 'l' :: 'e' :: ':' :: '/' :: '/' :: rest => some (String.mk rest)
  | _ => none

/-- The files of the sample world. -/
def sampleOpen (path : String) (readProperties : Bool) : VorbisFile :=
  let properties : Option AudioProperties :=
    if readProperties then
      some { length := 180, bitrate := 128, sampleRate := 44100, channels := 2 }
    else none
  if path = "/music/song.ogg" then
    { isValid := true, audioProperties := properties, tag := some sampleTag, save := true }
  else if path = "/music/locked.ogg" then
    { isValid := true, audioProperties := properties, tag := some sampleTag, save := false }
  else if path = "/music/truncated.ogg" then
    { isValid := true, audioProperties := properties, tag := some truncatedTag, save := true }
  else if path = "/music/wrapped.ogg" then
    { isValid := true, audioProperties := properties, tag := some wrappedTag, save := true }
  else if path = "/music/plain.ogg" then
    { isValid := true, audioProperties := properties, tag := some plainTag, save := true }
  else
    { isValid := false, audioProperties := none, tag := none, save := false }

/-- The sample environment. -/
def sampleExternals : Externals where
  CFURLGetFileSystemRepresentation := samplePath
  openFile := sampleOpen
  CreateDisplayNameForURL := fun url =>
    String.mk (url.data.reverse.takeWhile (fun c => c ≠ '/')).reverse
  CFCopyLocalizedString := fun key => key
  AudioMetadataErrorDomain := "org.sbooth.AudioEngine.ErrorDomain.AudioMetadata"
  AudioMetadataInputOutputError := 2
  AddAudioPropertiesToDictionary := fun d properties =>
    CFDictionarySetValue
      (CFDictionarySetValue d (Key.named "Duration") (Value.number properties.length))
      (Key.named "Sample Rate") (Value.number properties.sampleRate)
  AddXiphCommentToDictionary := fun d tag =>
    match tag.fieldListMap.lookup "TITLE" with
    | some (title :: _) => CFDictionarySetValue d (Key.named "Title") (Value.string title)
    | _ => d
  SetXiphCommentFromMetadata := fun m tag =>
    (m, tag.map (fun t =>
      match CFDictionaryGetValue (m.mChangedMetadata ++ m.mMetadata) (Key.named "Title") with
      | some (Value.string title) =>
        { t with
          fieldListMap :=
            ("TITLE", [title]) :: (t.fieldListMap.filter (fun kv => kv.1 ≠ "TITLE")) }
      | _ => t))
  MergeChangedMetadataIntoMetadata := fun m =>
    { m with
      mMetadata := m.mChangedMetadata.foldl (fun d kv => CFDictionarySetValue d kv.1 kv.2)
        m.mMetadata
      mChangedMetadata := [] }

/-- A metadata object with earlier contents and a pending edit of the title. -/
def sampleMetadata (url : String) : AudioMetadata :=
  { mURL := url
    mMetadata := [(Key.named "Title", Value.string "Old"), (Key.named "Artist", Value.string "A")]
    mChangedMetadata := [(Key.named "Title", Value.string "New")] }

/-- The sample world with every file unreadable as an Ogg Vorbis container. -/
def unreadableExternals : Externals :=
  { sampleExternals with
    openFile := fun _ _ =>
      { isValid := false, audioProperties := none, tag := none, save := false } }

/-! ## Auxiliary facts -/

theorem compareFolded_eq_iff (a b : List Char) :
    compareFolded a b = CFComparisonResult.kCFCompareEqualTo ↔
      a.map foldCase = b.map foldCase := by
  induction a generalizing b with
  | nil => cases b <;> simp [compareFolded]
  | cons x xs ih =>
    cases b with
    | nil => simp [compareFolded]
    | cons y ys =>
      simp only [compareFolded, List.map_cons, List.cons.injEq]
      by_cases h1 : foldCase x < foldCase y
      · simp only [h1, if_true]
        constructor
        · intro h; cases h
        · rintro ⟨h, -⟩; rw [h] at h1; exact absurd h1 (lt_irrefl _)
      · by_cases h2 : foldCase y < foldCase x
        · simp only [h1, h2, if_true, if_false]
          constructor
          · intro h; cases h
          · rintro ⟨h, -⟩; rw [h] at h2; exact absurd h2 (lt_irrefl _)
        · simp only [h1, h2, if_false, ih]
          have : foldCase x = foldCase y := le_antisymm (not_lt.mp h2) (not_lt.mp h1)
          simp [this]

theorem compare_equalTo_iff (a b : String) :
    CFComparisonResult.kCFCompareEqualTo = CFStringCompareCaseInsensitive a b ↔
      equalsIgnoringCase a b := by
  unfold CFStringCompareCaseInsensitive equalsIgnoringCase
  rw [eq_comm, compareFolded_eq_iff]

theorem getValue_setValue_self (d : CFDictionary) (k : Key) (v : Value) :
    CFDictionaryGetValue (CFDictionarySetValue d k v) k = some v := by
  induction d with
  | nil => simp [CFDictionarySetValue, CFDictionaryGetValue, List.lookup]
  | cons e rest ih =>
    obtain ⟨k0, v0⟩ := e
    unfold CFDictionaryGetValue at ih ⊢
    by_cases h : k0 = k
    · simp [CFDictionarySetValue, h, List.lookup]
    · have h2 : (k == k0) = false := by simpa using fun h3 => h h3.symm
      simp [CFDictionarySetValue, h, List.lookup, h2, ih]

theorem getValue_setValue_ne (d : CFDictionary) (k k2 : Key) (v : Value) (hne : k2 ≠ k) :
    CFDictionaryGetValue (CFDictionarySetValue d k v) k2 = CFDictionaryGetValue d k2 := by
  induction d with
  | nil =>
    have h2 : (k2 == k) = false := by simpa using hne
    simp [CFDictionarySetValue, CFDictionaryGetValue, List.lookup, h2]
  | cons e rest ih =>
    obtain ⟨k0, v0⟩ := e
    unfold CFDictionaryGetValue at ih ⊢
    by_cases h : k0 = k
    · subst h
      have h2 : (k2 == k0) = false := by simpa using hne
      simp [CFDictionarySetValue, List.lookup, h2]
    · by_cases h3 : k2 = k0
      · subst h3
        simp [CFDictionarySetValue, h, List.lookup]
      · have h4 : (k2 == k0) = false := by simpa using h3
        simp [CFDictionarySetValue, h, List.lookup, h4, ih]

/-- In every run of `WriteMetadata`, the pending changes are folded into the base
dictionary exactly when the method returns true. -/
theorem merge_iff_success (ext : Externals) (self : AudioMetadata) (error : Bool) :
    Call.MergeChangedMetadataIntoMetadata ∈ (WriteMetadata ext self error).calls ↔
      (WriteMetadata ext self error).ret = true := by
  unfold WriteMetadata
  cases ext.CFURLGetFileSystemRepresentation self.mURL with
  | none => simp
  | some buf =>
    simp only
    cases (ext.openFile buf false).isValid <;> cases (ext.openFile buf false).save <;>
      cases error <;> simp

theorem readMetadata_from_scratch (ext : Externals) (self : AudioMetadata) (error : Bool) :
    ReadMetadata ext self error =
      ReadMetadata ext { mURL := self.mURL, mMetadata := [], mChangedMetadata := [] } error := by
  rfl

theorem readMetadata_valid (ext : Externals) (self : AudioMetadata) (error : Bool)
    (buf : String) (hpath : ext.CFURLGetFileSystemRepresentation self.mURL = some buf)
    (hvalid : (ext.openFile buf true).isValid = true) :
    (ReadMetadata ext self error).ret = true ∧ (ReadMetadata ext self error).error = none ∧
    (ReadMetadata ext self error).self.mChangedMetadata = [] ∧
    (ReadMetadata ext self error).self.mURL = self.mURL := by
  unfold ReadMetadata
  simp only [hpath, hvalid, CFDictionaryRemoveAllValues]
  simp only [Bool.not_true, Bool.false_eq_true, if_false]
  cases (ext.openFile buf true).audioProperties <;> cases (ext.openFile buf true).tag <;>
    simp only [true_and] <;> (try split) <;> (try split) <;> simp only [and_self]

theorem readMetadata_valid_picture (ext : Externals) (self : AudioMetadata) (error : Bool)
    (buf : String) (t : XiphComment) (front : String) (rest : List String)
    (hpath : ext.CFURLGetFileSystemRepresentation self.mURL = some buf)
    (hvalid : (ext.openFile buf true).isValid = true)
    (htag : (ext.openFile buf true).tag = some t)
    (hpic : t.fieldListMap.lookup "METADATA_BLOCK_PICTURE" = some (front :: rest)) :
    (ReadMetadata ext self error).self.mMetadata =
      CFDictionarySetValue
        (ext.AddXiphCommentToDictionary (dictionaryBeforeTag ext (ext.openFile buf true)) t)
        Key.kAlbumArtFrontCoverKey
        (Value.data (Picture.new.parse (DecodeBase64 (dataUTF8 front))).2.data) := by
  unfold ReadMetadata dictionaryBeforeTag
  simp only [hpath, hvalid, htag, CFDictionaryRemoveAllValues, XiphComment.contains,
    XiphComment.fieldList, hpic]
  cases (ext.openFile buf true).audioProperties <;> simp

theorem readMetadata_valid_no_picture (ext : Externals) (self : AudioMetadata) (error : Bool)
    (buf : String) (t : XiphComment)
    (hpath : ext.CFURLGetFileSystemRepresentation self.mURL = some buf)
    (hvalid : (ext.openFile buf true).isValid = true)
    (htag : (ext.openFile buf true).tag = some t)
    (hpic : t.fieldListMap.lookup "METADATA_BLOCK_PICTURE" = none) :
    (ReadMetadata ext self error).self.mMetadata =
      ext.AddXiphCommentToDictionary (dictionaryBeforeTag ext (ext.openFile buf true)) t := by
  unfold ReadMetadata dictionaryBeforeTag
  simp only [hpath, hvalid, htag, CFDictionaryRemoveAllValues, XiphComment.contains,
    XiphComment.fieldList, hpic]
  cases (ext.openFile buf true).audioProperties <;> simp

theorem parse_rejected_data (p : Picture) (d : ByteVector) (h : (p.parse d).1 = false) :
    (p.parse d).2.data = p.data := by
  unfold Picture.parse at h ⊢
  dsimp only at h ⊢
  split
  · rfl
  · rw [if_neg (by assumption)] at h
    split
    · rfl
    · rw [if_neg (by assumption)] at h
      split
      · rfl
      · rw [if_neg (by assumption)] at h
        split
        · rfl
        · rw [if_neg (by assumption)] at h
          cases h

theorem uint_of_lt (n : Nat) (h : n < 4294967296) : uint n = n := Nat.mod_eq_of_lt h

theorem parse_rejects_truncated (p : Picture) (d : ByteVector)
    (hshort : d.length < requiredLength d) (hfit : requiredLength d < 4294967296) :
    (p.parse d).1 = false := by
  unfold requiredLength at hshort hfit
  unfold Picture.parse
  dsimp only
  simp only [Nat.zero_add, Nat.reduceAdd]
  by_cases h1 : d.length < 32
  · rw [if_pos h1]
  · rw [if_neg h1] at hshort hfit
    rw [if_neg h1]
    by_cases h2 : d.length < 32 + toUInt d 4
    · rw [if_pos h2] at hfit
      rw [uint_of_lt (8 + toUInt d 4 + 24) (by omega), if_pos (by omega)]
    · rw [if_neg h2] at hshort hfit
      have hfit3 : 32 + toUInt d 4 + toUInt d (8 + toUInt d 4) < 4294967296 := by
        split_ifs at hfit <;> omega
      rw [uint_of_lt (8 + toUInt d 4 + 24) (by omega), if_neg (by omega),
        uint_of_lt (8 + toUInt d 4) (by omega), uint_of_lt (8 + toUInt d 4 + 4) (by omega)]
      by_cases h3 : d.length < 32 + toUInt d 4 + toUInt d (8 + toUInt d 4)
      · rw [uint_of_lt (8 + toUInt d 4 + 4 + toUInt d (8 + toUInt d 4) + 20) (by omega),
          if_pos (by omega)]
      · rw [if_neg h3] at hshort hfit
        generalize toUInt d 4 = m at *
        generalize toUInt d (8 + m) = ds at *
        have e1 : uint (8 + m + 4 + ds) = 8 + m + 4 + ds := uint_of_lt _ (by omega)
        have e2 : uint (8 + m + 4 + ds + 4) = 8 + m + 4 + ds + 4 := uint_of_lt _ (by omega)
        have e3 : uint (8 + m + 4 + ds + 4 + 4) = 8 + m + 4 + ds + 4 + 4 :=
          uint_of_lt _ (by omega)
        have e4 : uint (8 + m + 4 + ds + 4 + 4 + 4) = 8 + m + 4 + ds + 4 + 4 + 4 :=
          uint_of_lt _ (by omega)
        have e5 : uint (8 + m + 4 + ds + 4 + 4 + 4 + 4) = 28 + m + ds := by
          rw [uint_of_lt _ (by omega)]; omega
        have e6 : uint (28 + m + ds + 4) = 32 + m + ds := by
          rw [uint_of_lt _ (by omega)]; omega
        rw [uint_of_lt (8 + m + 4 + ds + 20) (by omega), if_neg (by omega)]
        simp only [e1, e2, e3, e4, e5, e6]
        rw [uint_of_lt _ hfit, if_pos hshort]

theorem sample_addAudioProperties_keeps_formatName (d : CFDictionary)
    (properties : AudioProperties) :
    CFDictionaryGetValue (sampleExternals.AddAudioPropertiesToDictionary d properties)
      Key.kPropertiesFormatNameKey = CFDictionaryGetValue d Key.kPropertiesFormatNameKey := by
  show CFDictionaryGetValue (CFDictionarySetValue (CFDictionarySetValue d _ _) _ _) _ = _
  rw [getValue_setValue_ne _ _ _ _ (by decide), getValue_setValue_ne _ _ _ _ (by decide)]

theorem sample_addXiphComment_keeps_formatName (d : CFDictionary) (tag : XiphComment) :
    CFDictionaryGetValue (sampleExternals.AddXiphCommentToDictionary d tag)
      Key.kPropertiesFormatNameKey = CFDictionaryGetValue d Key.kPropertiesFormatNameKey := by
  show CFDictionaryGetValue
    (match tag.fieldListMap.lookup "TITLE" with
      | some (title :: _) => CFDictionarySetValue d (Key.named "Title") (Value.string title)
      | _ => d) _ = _
  split
  · rw [getValue_setValue_ne _ _ _ _ (by decide)]
  · rfl

theorem EVP_EncodeBlock_append : ∀ (a b : ByteVector), 3 ∣ a.length →
    EVP_EncodeBlock (a ++ b) = EVP_EncodeBlock a ++ EVP_EncodeBlock b
  | [], _, _ => rfl
  | [_], _, h => absurd h (by norm_num)
  | [_, _], _, h => absurd h (by norm_num)
  | x :: y :: z :: rest, b, h => by
    have h2 : 3 ∣ rest.length := by
      have : (x :: y :: z :: rest).length = rest.length + 3 := by simp
      rw [this] at h
      exact (Nat.dvd_add_left (dvd_refl 3)).mp h
    rw [show (x :: y :: z :: rest) ++ b = x :: y :: z :: (rest ++ b) from rfl]
    simp only [EVP_EncodeBlock]
    rw [EVP_EncodeBlock_append rest b h2]
    simp

theorem b64_write_from_empty (fuel : Nat) : ∀ (inp mem : ByteVector), inp.length < fuel →
    (b64_write fuel [] inp mem).2 =
      mem ++ EVP_EncodeBlock (inp.take (inp.length - inp.length % 3)) := by
  induction fuel with
  | zero => intro inp mem h; omega
  | succ fuel ih =>
    intro inp mem h
    unfold b64_write
    by_cases h0 : inp.length = 0
    · rw [if_pos h0]
      simp [h0, EVP_EncodeBlock]
    · rw [if_neg h0]
      dsimp only
      rw [if_neg (by simp)]
      by_cases h3 : (if inp.length > B64_BLOCK_SIZE then B64_BLOCK_SIZE else inp.length) < 3
      · rw [if_pos h3]
        have hlen : inp.length < 3 := by
          unfold B64_BLOCK_SIZE at h3
          split_ifs at h3 <;> omega
        have hmod : inp.length - inp.length % 3 = 0 := by
          rw [Nat.mod_eq_of_lt hlen]; omega
        simp [hmod, EVP_EncodeBlock]
      · rw [if_neg h3]
        generalize hn : (if inp.length > B64_BLOCK_SIZE then B64_BLOCK_SIZE else inp.length) = n
          at h3
        have hnle : n ≤ inp.length := by
          rw [← hn]; unfold B64_BLOCK_SIZE; split_ifs <;> omega
        have hn3 : 3 ≤ n := by omega
        have hdvd : 3 ∣ n - n % 3 := (Nat.dvd_sub_mod n)
        have hpos : 0 < n - n % 3 := by
          have := Nat.mod_lt n (show 3 > 0 by decide)
          omega
        have hle : n - n % 3 ≤ inp.length := by omega
        rw [ih _ _ (by rw [List.length_drop]; omega)]
        rw [List.append_assoc]
        congr 1
        rw [← EVP_EncodeBlock_append _ _
          (by rw [List.length_take, Nat.min_eq_left hle]; exact hdvd)]
        congr 1
        have hmod : (inp.length - (n - n % 3)) % 3 = inp.length % 3 := by
          obtain ⟨k, hk⟩ := hdvd
          rw [hk] at hle ⊢
          omega
        rw [List.length_drop, hmod, List.take_drop]
        have hsplit : inp.length - inp.length % 3 =
            (n - n % 3) + (inp.length - (n - n % 3) - inp.length % 3) := by
          have := Nat.mod_le inp.length 3
          obtain ⟨k, hk⟩ := hdvd
          rw [hk] at hle ⊢
          omega
        rw [hsplit]
        have htake : List.take (n - n % 3) inp =
            List.take (n - n % 3) (List.take
              (n - n % 3 + (inp.length - (n - n % 3) - inp.length % 3)) inp) := by
          rw [List.take_take]
          congr 1
          omega
        rw [htake, List.take_append_drop]

/-- What `EncodeBase64` returns: the encoding of the longest prefix of the input whose
length is a multiple of three. -/
theorem encodeBase64_eq (input : ByteVector) :
    EncodeBase64 input = EVP_EncodeBlock (input.take (input.length - input.length % 3)) := by
  unfold EncodeBase64
  rw [b64_write_from_empty _ _ _ (Nat.lt_succ_self _)]
  rfl

theorem conv_roundtrip (v : Nat) : conv_ascii2bin (conv_bin2ascii v) = v % 64 := by
  have h : ∀ w, w < 64 → conv_ascii2bin (data_bin2ascii.getD w 0) = w := by decide
  exact h (v % 64) (Nat.mod_lt _ (by decide))

theorem conv_bin2ascii_ne_pad (v : Nat) : conv_bin2ascii v ≠ 61 := by
  have h : ∀ w, w < 64 → data_bin2ascii.getD w 0 ≠ 61 := by decide
  exact h (v % 64) (Nat.mod_lt _ (by decide))

theorem EVP_EncodeBlock_alphabet : ∀ (a : ByteVector), 3 ∣ a.length →
    allAlphabet (EVP_EncodeBlock a)
  | [], _ => by intro c hc; simp [EVP_EncodeBlock] at hc
  | [_], h => absurd h (by norm_num)
  | [_, _], h => absurd h (by norm_num)
  | x :: y :: z :: rest, h => by
    have h2 : 3 ∣ rest.length := by
      have : (x :: y :: z :: rest).length = rest.length + 3 := by simp
      rw [this] at h
      exact (Nat.dvd_add_left (dvd_refl 3)).mp h
    intro c hc
    simp only [EVP_EncodeBlock, List.mem_cons] at hc
    rcases hc with rfl | rfl | rfl | rfl | hc
    · exact ⟨_, rfl⟩
    · exact ⟨_, rfl⟩
    · exact ⟨_, rfl⟩
    · exact ⟨_, rfl⟩
    · exact EVP_EncodeBlock_alphabet rest h2 c hc

theorem EVP_EncodeBlock_length : ∀ (a : ByteVector), 3 ∣ a.length →
    (EVP_EncodeBlock a).length = 4 * (a.length / 3)
  | [], _ => rfl
  | [_], h => absurd h (by norm_num)
  | [_, _], h => absurd h (by norm_num)
  | x :: y :: z :: rest, h => by
    have h2 : 3 ∣ rest.length := by
      have : (x :: y :: z :: rest).length = rest.length + 3 := by simp
      rw [this] at h
      exact (Nat.dvd_add_left (dvd_refl 3)).mp h
    simp only [EVP_EncodeBlock, List.length_cons, EVP_EncodeBlock_length rest h2]
    omega

theorem decodeGroups_encode : ∀ (a : ByteVector), 3 ∣ a.length → (∀ x ∈ a, x < 256) →
    decodeGroups (EVP_EncodeBlock a) = some a
  | [], _, _ => rfl
  | [_], h, _ => absurd h (by norm_num)
  | [_, _], h, _ => absurd h (by norm_num)
  | x :: y :: z :: rest, h, hb => by
    have h2 : 3 ∣ rest.length := by
      have : (x :: y :: z :: rest).length = rest.length + 3 := by simp
      rw [this] at h
      exact (Nat.dvd_add_left (dvd_refl 3)).mp h
    have hx : x < 256 := hb x (by simp)
    have hy : y < 256 := hb y (by simp)
    have hz : z < 256 := hb z (by simp)
    have hrest : ∀ w ∈ rest, w < 256 := fun w hw => hb w (by simp [hw])
    simp only [EVP_EncodeBlock, decodeGroups, conv_roundtrip,
      decodeGroups_encode rest h2 hrest]
    rw [if_neg (by omega)]
    simp only [Option.some.injEq, List.cons.injEq, and_true]
    refine ⟨?_, ?_, ?_⟩ <;> omega

theorem alphabet_not_space (v : Nat) : conv_ascii2bin (conv_bin2ascii v) ≠ 0xE0 := by
  rw [conv_roundtrip]
  have := Nat.mod_lt v (show 64 > 0 by decide)
  omega

theorem alphabet_is_base64 (v : Nat) :
    B64_NOT_BASE64 (conv_ascii2bin (conv_bin2ascii v)) = false := by
  rw [conv_roundtrip]
  have := Nat.mod_lt v (show 64 > 0 by decide)
  unfold B64_NOT_BASE64
  simp only [Bool.or_eq_false_iff, decide_eq_false_iff_not]
  omega

theorem dropWhile_alphabet (cs : ByteVector) (h : allAlphabet cs) :
    cs.dropWhile (fun c => conv_ascii2bin c = 0xE0) = cs := by
  cases cs with
  | nil => rfl
  | cons c rest =>
    obtain ⟨v, hv⟩ := h c (by simp)
    rw [List.dropWhile_cons, hv]
    simp [alphabet_not_space]

theorem trimEnd_alphabet (cs : ByteVector) (h : allAlphabet cs) : trimEnd cs = cs := by
  cases cs with
  | nil => rfl
  | cons c rest =>
    obtain ⟨v, hv⟩ := h c (by simp)
    unfold trimEnd
    rw [hv, alphabet_is_base64]
    simp

theorem EVP_DecodeBlock_encode (a : ByteVector) (h3 : 3 ∣ a.length) (hb : ∀ x ∈ a, x < 256) :
    EVP_DecodeBlock (EVP_EncodeBlock a) = some a := by
  have halpha := EVP_EncodeBlock_alphabet a h3
  unfold EVP_DecodeBlock
  simp only
  rw [dropWhile_alphabet _ halpha, trimEnd_alphabet, List.reverse_reverse]
  · exact decodeGroups_encode a h3 hb
  · intro c hc
    exact halpha c (List.mem_reverse.mp hc)

theorem b64_read_block_encode (a : ByteVector) (h3 : 3 ∣ a.length) (hb : ∀ x ∈ a, x < 256)
    (hne : 0 < a.length) : b64_read_block (EVP_EncodeBlock a) = some a := by
  have hlen := EVP_EncodeBlock_length a h3
  have halpha := EVP_EncodeBlock_alphabet a h3
  obtain ⟨k, hk⟩ := h3
  have hjj : (EVP_EncodeBlock a).length - (EVP_EncodeBlock a).length % 4 =
      (EVP_EncodeBlock a).length := by rw [hlen]; omega
  have hpos : 0 < (EVP_EncodeBlock a).length := by rw [hlen, hk]; omega
  have hlast : (EVP_EncodeBlock a).getD ((EVP_EncodeBlock a).length - 1) 0 ≠ 61 := by
    rw [List.getD_eq_getElem _ _ (by omega)]
    obtain ⟨v, hv⟩ := halpha _ (List.getElem_mem (l := EVP_EncodeBlock a)
      (n := (EVP_EncodeBlock a).length - 1) (by omega))
    rw [hv]
    exact conv_bin2ascii_ne_pad v
  unfold b64_read_block
  simp only [hjj, List.take_length, EVP_DecodeBlock_encode a ⟨k, hk⟩ hb]
  rw [if_neg hlast]
  simp [hne]

theorem EVP_EncodeBlock_split (a : ByteVector) (h3 : 3 ∣ a.length) :
    (EVP_EncodeBlock a).take B64_BLOCK_SIZE = EVP_EncodeBlock (a.take 768) ∧
    (EVP_EncodeBlock a).drop B64_BLOCK_SIZE = EVP_EncodeBlock (a.drop 768) := by
  unfold B64_BLOCK_SIZE
  by_cases hlen : 768 ≤ a.length
  · have htake : (a.take 768).length = 768 := by rw [List.length_take]; omega
    have hsplit : EVP_EncodeBlock a =
        EVP_EncodeBlock (a.take 768) ++ EVP_EncodeBlock (a.drop 768) := by
      rw [← EVP_EncodeBlock_append _ _ (by rw [htake]; decide), List.take_append_drop]
    have hl : (EVP_EncodeBlock (a.take 768)).length = 1024 := by
      rw [EVP_EncodeBlock_length _ (by rw [htake]; decide), htake]
    constructor
    · rw [hsplit, List.take_left' hl]
    · rw [hsplit, List.drop_left' hl]
  · have hall : a.take 768 = a := List.take_of_length_le (by omega)
    have hnone : a.drop 768 = [] := List.drop_of_length_le (by omega)
    have hl : (EVP_EncodeBlock a).length ≤ 1024 := by
      rw [EVP_EncodeBlock_length a h3]; omega
    rw [hall, hnone]
    exact ⟨List.take_of_length_le hl, List.drop_of_length_le hl⟩

theorem b64_read_encode (fuel : Nat) : ∀ (a : ByteVector), 3 ∣ a.length →
    (∀ x ∈ a, x < 256) → a.length < fuel → b64_read fuel (EVP_EncodeBlock a) = a := by
  induction fuel with
  | zero => intro a _ _ h; omega
  | succ fuel ih =>
    intro a h3 hb hfuel
    unfold b64_read
    have hlen := EVP_EncodeBlock_length a h3
    by_cases h0 : a.length = 0
    · have : a = [] := List.length_eq_zero.mp h0
      subst this
      rfl
    · have hk := h3
      obtain ⟨k, hk⟩ := hk
      rw [if_neg (by rw [hlen, hk]; omega)]
      have htake3 : 3 ∣ (a.take 768).length := by
        rw [List.length_take]
        by_cases hl : 768 ≤ a.length
        · rw [Nat.min_eq_left hl]; decide
        · rw [Nat.min_eq_right (by omega)]; exact h3
      have hdrop3 : 3 ∣ (a.drop 768).length := by
        rw [List.length_drop]
        by_cases hl : 768 ≤ a.length
        · exact (Nat.dvd_sub hl h3 (by decide))
        · rw [Nat.sub_eq_zero_of_le (by omega)]; exact dvd_zero 3
      have htakeb : ∀ x ∈ a.take 768, x < 256 := fun x hx => hb x (List.mem_of_mem_take hx)
      have hdropb : ∀ x ∈ a.drop 768, x < 256 := fun x hx => hb x (List.mem_of_mem_drop hx)
      have htakepos : 0 < (a.take 768).length := by rw [List.length_take]; omega
      rw [(EVP_EncodeBlock_split a h3).1, (EVP_EncodeBlock_split a h3).2,
        b64_read_block_encode _ htake3 htakeb htakepos]
      simp only
      rw [ih _ hdrop3 hdropb (by rw [List.length_drop]; omega), List.take_append_drop]

/-- What the two helpers do in sequence, for bytes below 256: `DecodeBase64` gives back
the longest prefix of the input of `EncodeBase64` whose length is a multiple of three. -/
theorem decodeBase64_encodeBase64 (input : ByteVector) (hb : ∀ x ∈ input, x < 256) :
    DecodeBase64 (EncodeBase64 input) = input.take (input.length - input.length % 3) := by
  have h3 : 3 ∣ (input.take (input.length - input.length % 3)).length := by
    rw [List.length_take, Nat.min_eq_left (Nat.sub_le _ _)]
    exact Nat.dvd_sub_mod _
  unfold DecodeBase64
  rw [encodeBase64_eq]
  exact b64_read_encode _ _ h3 (fun x hx => hb x (List.mem_of_mem_take hx))
    (by
      rw [EVP_EncodeBlock_length _ h3]
      have := Nat.div_mul_le_self (input.take (input.length - input.length % 3)).length 3
      omega)

/-- On inputs whose length is a multiple of three, `DecodeBase64` inverts
`EncodeBase64`. -/
theorem decodeBase64_encodeBase64_of_dvd (input : ByteVector) (hb : ∀ x ∈ input, x < 256)
    (h3 : 3 ∣ input.length) : DecodeBase64 (EncodeBase64 input) = input := by
  rw [decodeBase64_encodeBase64 input hb, Nat.mod_eq_zero_of_dvd h3, Nat.sub_zero,
    List.take_length]

/-- On every path after the URL has been converted, and with a non-null error pointer,
`ReadMetadata` and `WriteMetadata` return false exactly when they store an error. -/
theorem failure_iff_error_after_path (ext : Externals) (self : AudioMetadata) (buf : String)
    (hpath : ext.CFURLGetFileSystemRepresentation self.mURL = some buf) :
    ((ReadMetadata ext self true).ret = false ↔
      (ReadMetadata ext self true).error.isSome = true) ∧
    ((WriteMetadata ext self true).ret = false ↔
      (WriteMetadata ext self true).error.isSome = true) := by
  unfold ReadMetadata WriteMetadata
  simp only [hpath, CFDictionaryRemoveAllValues]
  constructor
  · cases (ext.openFile buf true).isValid <;> simp
  · cases (ext.openFile buf false).isValid <;> cases (ext.openFile buf false).save <;> simp

/-- A truncated block whose declared data length makes the 32-bit sum of the parser wrap
around: the sample block of 37 bytes declares 4294967295 data bytes, the parser accepts
it, and `ReadMetadata` stores the two bytes that follow the length field. -/
theorem wrapped_length_block_is_accepted :
    (DecodeBase64 (dataUTF8 "AAAAAwAAAANpamsAAAAAAAAAAQAAAAEAAAABAAAAAf////8JCA==")).length =
      37 ∧
    requiredLength
      (DecodeBase64 (dataUTF8 "AAAAAwAAAANpamsAAAAAAAAAAQAAAAEAAAABAAAAAf////8JCA==")) =
      35 + 4294967295 ∧
    (Picture.new.parse
      (DecodeBase64 (dataUTF8 "AAAAAwAAAANpamsAAAAAAAAAAQAAAAEAAAABAAAAAf////8JCA=="))).1 =
      true ∧
    CFDictionaryGetValue
      (ReadMetadata sampleExternals (sampleMetadata "file:///music/wrapped.ogg")
        true).self.mMetadata Key.kAlbumArtFrontCoverKey = some (Value.data [9, 8]) := by
  decide

/-! ## The claims -/

/-- Claim C1: `HandlesFilesWithExtension s` is true exactly when `s` equals, ignoring letter
case, an element of `CreateSupportedFileExtensions` (`ogg`, `oga`), and `HandlesMIMEType s`
is true exactly when `s` equals, ignoring letter case, an element of
`CreateSupportedMIMETypes` (`audio/ogg-vorbis`); `OGG` and `ogg` are handled and `mp3` is
not. -/
theorem handles_iff_case_insensitive_member (s : String) :
    (HandlesFilesWithExtension s = true ↔
        ∃ e ∈ CreateSupportedFileExtensions, equalsIgnoringCase s e) ∧
    (HandlesMIMEType s = true ↔
        ∃ e ∈ CreateSupportedMIMETypes, equalsIgnoringCase s e) ∧
    HandlesFilesWithExtension "OGG" = true ∧ HandlesFilesWithExtension "ogg" = true ∧
    HandlesFilesWithExtension "mp3" = false := by
  refine ⟨?_, ?_, by decide, by decide, by decide⟩
  · unfold HandlesFilesWithExtension CreateSupportedFileExtensions
    by_cases h1 : CFComparisonResult.kCFCompareEqualTo = CFStringCompareCaseInsensitive s "ogg"
    · rw [if_pos h1]
      exact ⟨fun _ => ⟨"ogg", by simp, (compare_equalTo_iff _ _).mp h1⟩, fun _ => rfl⟩
    · rw [if_neg h1]
      by_cases h2 : CFComparisonResult.kCFCompareEqualTo = CFStringCompareCaseInsensitive s "oga"
      · rw [if_pos h2]
        exact ⟨fun _ => ⟨"oga", by simp, (compare_equalTo_iff _ _).mp h2⟩, fun _ => rfl⟩
      · rw [if_neg h2]
        constructor
        · intro h; cases h
        · rintro ⟨e, he, hs⟩
          simp only [List.mem_cons, List.mem_singleton, List.not_mem_nil, or_false] at he
          rcases he with rfl | rfl
          · exact absurd ((compare_equalTo_iff _ _).mpr hs) h1
          · exact absurd ((compare_equalTo_iff _ _).mpr hs) h2
  · unfold HandlesMIMEType CreateSupportedMIMETypes
    by_cases h1 : CFComparisonResult.kCFCompareEqualTo =
        CFStringCompareCaseInsensitive s "audio/ogg-vorbis"
    · rw [if_pos h1]
      exact ⟨fun _ => ⟨"audio/ogg-vorbis", by simp, (compare_equalTo_iff _ _).mp h1⟩,
        fun _ => rfl⟩
    · rw [if_neg h1]
      constructor
      · intro h; cases h
      · rintro ⟨e, he, hs⟩
        simp only [List.mem_singleton] at he
        subst he
        exact absurd ((compare_equalTo_iff _ _).mpr hs) h1

/-- Claim C2: when the container opened by `ReadMetadata` is not valid, the method returns
false, stores an error if the error pointer is non-null, and leaves the base dictionary
without any entry, whatever the object held before. -/
theorem readMetadata_invalid_container (ext : Externals) (self : AudioMetadata) (error : Bool)
    (buf : String) (hpath : ext.CFURLGetFileSystemRepresentation self.mURL = some buf)
    (hinvalid : (ext.openFile buf true).isValid = false) :
    (ReadMetadata ext self error).ret = false ∧
    (error = true → (ReadMetadata ext self error).error.isSome = true) ∧
    (ReadMetadata ext self error).self.mMetadata = [] ∧
    (∀ key, CFDictionaryGetValue (ReadMetadata ext self error).self.mMetadata key = none) := by
  have h : (ReadMetadata ext self error).ret = false ∧
      (error = true → (ReadMetadata ext self error).error.isSome = true) ∧
      (ReadMetadata ext self error).self.mMetadata = [] := by
    unfold ReadMetadata
    simp only [hpath, hinvalid, CFDictionaryRemoveAllValues]
    cases error <;> simp
  refine ⟨h.1, h.2.1, h.2.2, ?_⟩
  intro key
  rw [h.2.2]
  rfl

/-- Witness for claim C2: the sample object bound to a file that is not an Ogg Vorbis
file. -/
theorem readMetadata_invalid_container_witness :
    sampleExternals.CFURLGetFileSystemRepresentation
        (sampleMetadata "file:///music/missing.ogg").mURL = some "/music/missing.ogg" ∧
    (sampleExternals.openFile "/music/missing.ogg" true).isValid = false ∧
    (ReadMetadata sampleExternals (sampleMetadata "file:///music/missing.ogg") true).ret = false ∧
    (ReadMetadata sampleExternals (sampleMetadata "file:///music/missing.ogg")
        true).self.mMetadata = [] :=
  ⟨by decide, by decide,
    (readMetadata_invalid_container sampleExternals (sampleMetadata "file:///music/missing.ogg")
      true "/music/missing.ogg" (by decide) (by decide)).1,
    (readMetadata_invalid_container sampleExternals (sampleMetadata "file:///music/missing.ogg")
      true "/music/missing.ogg" (by decide) (by decide)).2.2.1⟩

/-- Claim C3: if `SetXiphCommentFromMetadata` leaves the metadata object as it is, the
container is valid and `save()` returns false, then `WriteMetadata` returns false, the base
dictionary and the pending changes are what they were before the call, the pending changes
have not been folded into the base dictionary, and a second `WriteMetadata` call behaves
as it would have on the original object. -/
theorem writeMetadata_failed_save_keeps_pending (ext : Externals) (self : AudioMetadata)
    (error : Bool) (buf : String)
    (hconst : ∀ m t, (ext.SetXiphCommentFromMetadata m t).1 = m)
    (hpath : ext.CFURLGetFileSystemRepresentation self.mURL = some buf)
    (hvalid : (ext.openFile buf false).isValid = true)
    (hsave : (ext.openFile buf false).save = false) :
    (WriteMetadata ext self error).ret = false ∧
    (WriteMetadata ext self error).self.mMetadata = self.mMetadata ∧
    (WriteMetadata ext self error).self.mChangedMetadata = self.mChangedMetadata ∧
    Call.MergeChangedMetadataIntoMetadata ∉ (WriteMetadata ext self error).calls ∧
    (∀ (ext2 : Externals) (error2 : Bool),
      WriteMetadata ext2 (WriteMetadata ext self error).self error2 =
        WriteMetadata ext2 self error2) := by
  have h : (WriteMetadata ext self error).ret = false ∧
      (WriteMetadata ext self error).self = self ∧
      Call.MergeChangedMetadataIntoMetadata ∉ (WriteMetadata ext self error).calls := by
    unfold WriteMetadata
    simp only [hpath, hvalid, hsave, hconst]
    cases error <;> simp
  refine ⟨h.1, by rw [h.2.1], by rw [h.2.1], h.2.2, ?_⟩
  intro ext2 error2
  rw [h.2.1]

/-- Witness for claim C3: the sample object with a pending title, bound to a file whose
save fails. -/
theorem writeMetadata_failed_save_keeps_pending_witness :
    (∀ m t, (sampleExternals.SetXiphCommentFromMetadata m t).1 = m) ∧
    (sampleExternals.openFile "/music/locked.ogg" false).isValid = true ∧
    (sampleExternals.openFile "/music/locked.ogg" false).save = false ∧
    (WriteMetadata sampleExternals (sampleMetadata "file:///music/locked.ogg") true).ret = false ∧
    (WriteMetadata sampleExternals (sampleMetadata "file:///music/locked.ogg")
        true).self.mChangedMetadata = [(Key.named "Title", Value.string "New")] :=
  ⟨fun _ _ => rfl, by decide, by decide,
    (writeMetadata_failed_save_keeps_pending sampleExternals
      (sampleMetadata "file:///music/locked.ogg") true "/music/locked.ogg" (fun _ _ => rfl)
      (by decide) (by decide) (by decide)).1,
    (writeMetadata_failed_save_keeps_pending sampleExternals
      (sampleMetadata "file:///music/locked.ogg") true "/music/locked.ogg" (fun _ _ => rfl)
      (by decide) (by decide) (by decide)).2.2.1⟩

/-- Claim C8: when the container opened by `WriteMetadata` is not valid, the method returns
false, stores an error if the error pointer is non-null, and that error is the one
`ReadMetadata` stores for an invalid container; no call is made to
`SetXiphCommentFromMetadata`, `save()` or `MergeChangedMetadataIntoMetadata`, so the
comment block of the file object and the metadata object are as they were. -/
theorem writeMetadata_invalid_container (ext : Externals) (self : AudioMetadata) (error : Bool)
    (buf : String) (hpath : ext.CFURLGetFileSystemRepresentation self.mURL = some buf)
    (hinvalid : (ext.openFile buf false).isValid = false) :
    (WriteMetadata ext self error).ret = false ∧
    (error = true → (WriteMetadata ext self error).error.isSome = true) ∧
    ((ext.openFile buf true).isValid = false →
      (WriteMetadata ext self error).error = (ReadMetadata ext self error).error) ∧
    (WriteMetadata ext self error).calls = [] ∧
    (WriteMetadata ext self error).tag = (ext.openFile buf false).tag ∧
    (WriteMetadata ext self error).self = self := by
  unfold WriteMetadata ReadMetadata
  simp only [hpath, hinvalid, CFDictionaryRemoveAllValues]
  cases error <;> simp <;> intro h <;> simp [h]

/-- Witness for claim C8: the sample object bound to a file that is not an Ogg Vorbis
file. -/
theorem writeMetadata_invalid_container_witness :
    (sampleExternals.openFile "/music/missing.ogg" false).isValid = false ∧
    (sampleExternals.openFile "/music/missing.ogg" true).isValid = false ∧
    (WriteMetadata sampleExternals (sampleMetadata "file:///music/missing.ogg") true).ret = false ∧
    (WriteMetadata sampleExternals (sampleMetadata "file:///music/missing.ogg") true).error =
      (ReadMetadata sampleExternals (sampleMetadata "file:///music/missing.ogg") true).error ∧
    (WriteMetadata sampleExternals (sampleMetadata "file:///music/missing.ogg") true).calls = [] :=
  ⟨by decide, by decide,
    (writeMetadata_invalid_container sampleExternals
      (sampleMetadata "file:///music/missing.ogg") true "/music/missing.ogg" (by decide)
      (by decide)).1,
    (writeMetadata_invalid_container sampleExternals
      (sampleMetadata "file:///music/missing.ogg") true "/music/missing.ogg" (by decide)
      (by decide)).2.2.1 (by decide),
    (writeMetadata_invalid_container sampleExternals
      (sampleMetadata "file:///music/missing.ogg") true "/music/missing.ogg" (by decide)
      (by decide)).2.2.2.1⟩

/-- Claim C5, at a URL without file-system representation and with a non-null error
pointer: `ReadMetadata` and `WriteMetadata` both return false and neither stores an
error. -/
theorem url_failure_stores_no_error :
    sampleExternals.CFURLGetFileSystemRepresentation "http://example.org/song.ogg" = none ∧
    (ReadMetadata sampleExternals (sampleMetadata "http://example.org/song.ogg") true).ret =
      false ∧
    (ReadMetadata sampleExternals (sampleMetadata "http://example.org/song.ogg") true).error =
      none ∧
    (WriteMetadata sampleExternals (sampleMetadata "http://example.org/song.ogg") true).ret =
      false ∧
    (WriteMetadata sampleExternals (sampleMetadata "http://example.org/song.ogg") true).error =
      none := by
  decide

/-- Claim C9 fails as stated: for one and the same file, the error stored when the
container is valid and `save()` fails has the code and the description of the error stored
when the container is not valid. -/
theorem saveFailure_error_same_code_and_description :
    (sampleExternals.openFile "/music/locked.ogg" false).isValid = true ∧
    (sampleExternals.openFile "/music/locked.ogg" false).save = false ∧
    (unreadableExternals.openFile "/music/locked.ogg" false).isValid = false ∧
    (WriteMetadata sampleExternals (sampleMetadata "file:///music/locked.ogg")
        true).error.isSome = true ∧
    (WriteMetadata sampleExternals (sampleMetadata "file:///music/locked.ogg")
        true).error.map CFError.code =
      (WriteMetadata unreadableExternals (sampleMetadata "file:///music/locked.ogg")
        true).error.map CFError.code ∧
    (WriteMetadata sampleExternals (sampleMetadata "file:///music/locked.ogg")
        true).error.map CFError.localizedDescription =
      (WriteMetadata unreadableExternals (sampleMetadata "file:///music/locked.ogg")
        true).error.map CFError.localizedDescription := by
  decide

/-- Claim C9, amended: with a non-null error pointer, the error stored when the container
is valid and `save()` fails and the error stored when the container is not valid have the
same domain and the same code, `AudioMetadataInputOutputError`; their failure reasons are
the localizations of `Unable to write metadata` and of `Not an Ogg Vorbis file`, so they
differ whenever these two localizations differ. -/
theorem saveFailure_error_differs_in_failure_reason (ext : Externals)
    (self1 self2 : AudioMetadata) (buf1 buf2 : String)
    (hpath1 : ext.CFURLGetFileSystemRepresentation self1.mURL = some buf1)
    (hvalid1 : (ext.openFile buf1 false).isValid = true)
    (hsave1 : (ext.openFile buf1 false).save = false)
    (hpath2 : ext.CFURLGetFileSystemRepresentation self2.mURL = some buf2)
    (hinvalid2 : (ext.openFile buf2 false).isValid = false)
    (hloc : ext.CFCopyLocalizedString "Unable to write metadata" ≠
      ext.CFCopyLocalizedString "Not an Ogg Vorbis file") :
    (WriteMetadata ext self1 true).ret = false ∧ (WriteMetadata ext self2 true).ret = false ∧
    (WriteMetadata ext self1 true).error.map CFError.code =
      some ext.AudioMetadataInputOutputError ∧
    (WriteMetadata ext self2 true).error.map CFError.code =
      some ext.AudioMetadataInputOutputError ∧
    (WriteMetadata ext self1 true).error.map CFError.domain =
      (WriteMetadata ext self2 true).error.map CFError.domain ∧
    (WriteMetadata ext self1 true).error.map CFError.localizedFailureReason =
      some (ext.CFCopyLocalizedString "Unable to write metadata") ∧
    (WriteMetadata ext self2 true).error.map CFError.localizedFailureReason =
      some (ext.CFCopyLocalizedString "Not an Ogg Vorbis file") ∧
    (WriteMetadata ext self1 true).error.map CFError.localizedFailureReason ≠
      (WriteMetadata ext self2 true).error.map CFError.localizedFailureReason := by
  unfold WriteMetadata
  simp only [hpath1, hvalid1, hsave1, hpath2, hinvalid2]
  simp [hloc]

/-- Witness for the amended claim C9: the sample world, a file whose save fails and a file
that is not an Ogg Vorbis file. -/
theorem saveFailure_error_differs_in_failure_reason_witness :
    (sampleExternals.openFile "/music/locked.ogg" false).isValid = true ∧
    (sampleExternals.openFile "/music/locked.ogg" false).save = false ∧
    (sampleExternals.openFile "/music/missing.ogg" false).isValid = false ∧
    (WriteMetadata sampleExternals (sampleMetadata "file:///music/locked.ogg")
        true).error.map CFError.localizedFailureReason ≠
      (WriteMetadata sampleExternals (sampleMetadata "file:///music/missing.ogg")
        true).error.map CFError.localizedFailureReason :=
  ⟨by decide, by decide, by decide,
    (saveFailure_error_differs_in_failure_reason sampleExternals
      (sampleMetadata "file:///music/locked.ogg") (sampleMetadata "file:///music/missing.ogg")
      "/music/locked.ogg" "/music/missing.ogg" (by decide) (by decide) (by decide) (by decide)
      (by decide) (by decide)).2.2.2.2.2.2.2⟩

/-- Claim C4 fails as stated: the first picture block of the sample file decodes to 32
bytes that declare a MIME type of 255 bytes, fewer than the record declares, and
`ReadMetadata` returns true, stores no error and stores a front-cover entry. -/
theorem truncated_picture_block_read_succeeds :
    (sampleExternals.openFile "/music/truncated.ogg" true).isValid = true ∧
    (sampleExternals.openFile "/music/truncated.ogg" true).tag = some truncatedTag ∧
    truncatedTag.fieldList "METADATA_BLOCK_PICTURE" =
      ["AAAAAwAAAP8AAAAAAAAAAAAAAAAAAAAAAAAAAAAAAAA="] ∧
    (DecodeBase64 (dataUTF8 "AAAAAwAAAP8AAAAAAAAAAAAAAAAAAAAAAAAAAAAAAAA=")).length = 32 ∧
    toUInt (DecodeBase64 (dataUTF8 "AAAAAwAAAP8AAAAAAAAAAAAAAAAAAAAAAAAAAAAAAAA=")) 4 = 255 ∧
    (DecodeBase64 (dataUTF8 "AAAAAwAAAP8AAAAAAAAAAAAAAAAAAAAAAAAAAAAAAAA=")).length <
      requiredLength (DecodeBase64 (dataUTF8 "AAAAAwAAAP8AAAAAAAAAAAAAAAAAAAAAAAAAAAAAAAA=")) ∧
    (ReadMetadata sampleExternals (sampleMetadata "file:///music/truncated.ogg") true).ret =
      true ∧
    (ReadMetadata sampleExternals (sampleMetadata "file:///music/truncated.ogg") true).error =
      none ∧
    CFDictionaryGetValue
      (ReadMetadata sampleExternals (sampleMetadata "file:///music/truncated.ogg")
        true).self.mMetadata Key.kAlbumArtFrontCoverKey = some (Value.data []) := by
  decide

/-- Claim C4, amended: for every valid container whose first `METADATA_BLOCK_PICTURE` value
base64-decodes to a buffer shorter than the length its record declares (for example fewer
bytes than the declared MIME type length), no error is raised: `ReadMetadata` returns true,
stores no error, and stores under the front-cover key the data of the picture object as
the TagLib parser leaves it. When the declared length of the record is below 2^32, the
parser rejects the block and that data has no byte, so no byte of the truncated block is
stored as a picture. -/
theorem truncated_picture_block_outcome (ext : Externals) (self : AudioMetadata)
    (error : Bool) (buf : String) (t : XiphComment) (front : String) (rest : List String)
    (hpath : ext.CFURLGetFileSystemRepresentation self.mURL = some buf)
    (hvalid : (ext.openFile buf true).isValid = true)
    (htag : (ext.openFile buf true).tag = some t)
    (hpic : t.fieldListMap.lookup "METADATA_BLOCK_PICTURE" = some (front :: rest))
    (hshort : (DecodeBase64 (dataUTF8 front)).length <
      requiredLength (DecodeBase64 (dataUTF8 front))) :
    (ReadMetadata ext self error).ret = true ∧
    (ReadMetadata ext self error).error = none ∧
    CFDictionaryGetValue (ReadMetadata ext self error).self.mMetadata
        Key.kAlbumArtFrontCoverKey =
      some (Value.data (Picture.new.parse (DecodeBase64 (dataUTF8 front))).2.data) ∧
    (requiredLength (DecodeBase64 (dataUTF8 front)) < 4294967296 →
      (Picture.new.parse (DecodeBase64 (dataUTF8 front))).1 = false ∧
      CFDictionaryGetValue (ReadMetadata ext self error).self.mMetadata
        Key.kAlbumArtFrontCoverKey = some (Value.data [])) := by
  have hstored : CFDictionaryGetValue (ReadMetadata ext self error).self.mMetadata
        Key.kAlbumArtFrontCoverKey =
      some (Value.data (Picture.new.parse (DecodeBase64 (dataUTF8 front))).2.data) := by
    rw [readMetadata_valid_picture ext self error buf t front rest hpath hvalid htag hpic,
      getValue_setValue_self]
  refine ⟨(readMetadata_valid ext self error buf hpath hvalid).1,
    (readMetadata_valid ext self error buf hpath hvalid).2.1, hstored, ?_⟩
  intro hfit
  have hreject := parse_rejects_truncated Picture.new _ hshort hfit
  refine ⟨hreject, ?_⟩
  rw [hstored, parse_rejected_data _ _ hreject]
  rfl

/-- Witness for the amended claim C4: the sample file whose first picture block has 32
bytes and declares a MIME type of 255 bytes. -/
theorem truncated_picture_block_outcome_witness :
    (sampleExternals.openFile "/music/truncated.ogg" true).isValid = true ∧
    (DecodeBase64 (dataUTF8 "AAAAAwAAAP8AAAAAAAAAAAAAAAAAAAAAAAAAAAAAAAA=")).length <
      requiredLength (DecodeBase64 (dataUTF8 "AAAAAwAAAP8AAAAAAAAAAAAAAAAAAAAAAAAAAAAAAAA=")) ∧
    requiredLength (DecodeBase64 (dataUTF8 "AAAAAwAAAP8AAAAAAAAAAAAAAAAAAAAAAAAAAAAAAAA=")) <
      4294967296 ∧
    (ReadMetadata sampleExternals (sampleMetadata "file:///music/truncated.ogg") false).ret =
      true ∧
    (ReadMetadata sampleExternals (sampleMetadata "file:///music/truncated.ogg") false).error =
      none ∧
    CFDictionaryGetValue
      (ReadMetadata sampleExternals (sampleMetadata "file:///music/truncated.ogg")
        false).self.mMetadata Key.kAlbumArtFrontCoverKey = some (Value.data []) :=
  ⟨by decide, by decide, by decide,
    (truncated_picture_block_outcome sampleExternals
      (sampleMetadata "file:///music/truncated.ogg") false "/music/truncated.ogg" truncatedTag
      "AAAAAwAAAP8AAAAAAAAAAAAAAAAAAAAAAAAAAAAAAAA=" [] (by decide) (by decide) (by decide)
      (by decide) (by decide)).1,
    (truncated_picture_block_outcome sampleExternals
      (sampleMetadata "file:///music/truncated.ogg") false "/music/truncated.ogg" truncatedTag
      "AAAAAwAAAP8AAAAAAAAAAAAAAAAAAAAAAAAAAAAAAAA=" [] (by decide) (by decide) (by decide)
      (by decide) (by decide)).2.1,
    ((truncated_picture_block_outcome sampleExternals
      (sampleMetadata "file:///music/truncated.ogg") false "/music/truncated.ogg" truncatedTag
      "AAAAAwAAAP8AAAAAAAAAAAAAAAAAAAAAAAAAAAAAAAA=" [] (by decide) (by decide) (by decide)
      (by decide) (by decide)).2.2.2 (by decide)).2⟩

/-- Claim C6: `ReadMetadata` replaces earlier contents wholesale. Two metadata objects
bound to the same URL and reading the same valid container end with the same base
dictionary and the same pending changes, whatever they held before; the pending changes
are empty; the base dictionary is the one obtained by reading into an object without
entries, so every entry it holds was produced by this read; and it maps the format-name
key to `Ogg Vorbis`, provided the two helpers that add audio properties and comment fields
leave the entry of that key as it is. -/
theorem readMetadata_replaces_contents (ext : Externals) (self1 self2 : AudioMetadata)
    (error1 error2 : Bool) (buf : String) (hurl : self1.mURL = self2.mURL)
    (hpath : ext.CFURLGetFileSystemRepresentation self1.mURL = some buf)
    (hvalid : (ext.openFile buf true).isValid = true) :
    (ReadMetadata ext self1 error1).ret = true ∧ (ReadMetadata ext self2 error2).ret = true ∧
    (ReadMetadata ext self1 error1).self.mMetadata =
      (ReadMetadata ext self2 error2).self.mMetadata ∧
    (ReadMetadata ext self1 error1).self.mChangedMetadata =
      (ReadMetadata ext self2 error2).self.mChangedMetadata ∧
    (ReadMetadata ext self1 error1).self.mChangedMetadata = [] ∧
    (ReadMetadata ext self1 error1).self.mMetadata =
      (ReadMetadata ext { mURL := self1.mURL, mMetadata := [], mChangedMetadata := [] }
        error1).self.mMetadata ∧
    ((∀ d properties,
        CFDictionaryGetValue (ext.AddAudioPropertiesToDictionary d properties)
          Key.kPropertiesFormatNameKey = CFDictionaryGetValue d Key.kPropertiesFormatNameKey) →
      (∀ d tag,
        CFDictionaryGetValue (ext.AddXiphCommentToDictionary d tag)
          Key.kPropertiesFormatNameKey = CFDictionaryGetValue d Key.kPropertiesFormatNameKey) →
      CFDictionaryGetValue (ReadMetadata ext self1 error1).self.mMetadata
        Key.kPropertiesFormatNameKey = some (Value.string "Ogg Vorbis")) := by
  have hpath2 : ext.CFURLGetFileSystemRepresentation self2.mURL = some buf := hurl ▸ hpath
  have h1 := readMetadata_valid ext self1 error1 buf hpath hvalid
  have h2 := readMetadata_valid ext self2 error2 buf hpath2 hvalid
  have hsame : (ReadMetadata ext self1 error1).self.mMetadata =
      (ReadMetadata ext self2 error2).self.mMetadata := by
    unfold ReadMetadata
    simp only [hpath, hpath2, hvalid, CFDictionaryRemoveAllValues, hurl]
    simp only [Bool.not_true, Bool.false_eq_true, if_false]
  refine ⟨h1.1, h2.1, hsame, by rw [h1.2.2.1, h2.2.2.1], h1.2.2.1, ?_, ?_⟩
  · exact congrArg (fun r => r.self.mMetadata) (readMetadata_from_scratch ext self1 error1)
  · intro hprops hxiph
    have hbase : CFDictionaryGetValue (dictionaryBeforeTag ext (ext.openFile buf true))
        Key.kPropertiesFormatNameKey = some (Value.string "Ogg Vorbis") := by
      unfold dictionaryBeforeTag
      cases (ext.openFile buf true).audioProperties with
      | none => exact getValue_setValue_self _ _ _
      | some properties =>
        simp only
        rw [hprops]
        exact getValue_setValue_self _ _ _
    cases htag : (ext.openFile buf true).tag with
    | none =>
      have : (ReadMetadata ext self1 error1).self.mMetadata =
          dictionaryBeforeTag ext (ext.openFile buf true) := by
        unfold ReadMetadata dictionaryBeforeTag
        simp only [hpath, hvalid, htag, CFDictionaryRemoveAllValues]
        cases (ext.openFile buf true).audioProperties <;> simp
      rw [this, hbase]
    | some t =>
      cases hpic : t.fieldListMap.lookup "METADATA_BLOCK_PICTURE" with
      | none =>
        rw [readMetadata_valid_no_picture ext self1 error1 buf t hpath hvalid htag hpic,
          hxiph, hbase]
      | some blocks =>
        cases blocks with
        | nil =>
          have : (ReadMetadata ext self1 error1).self.mMetadata =
              ext.AddXiphCommentToDictionary (dictionaryBeforeTag ext (ext.openFile buf true))
                t := by
            unfold ReadMetadata dictionaryBeforeTag
            simp only [hpath, hvalid, htag, CFDictionaryRemoveAllValues, XiphComment.contains,
              XiphComment.fieldList, hpic]
            cases (ext.openFile buf true).audioProperties <;> simp
          rw [this, hxiph, hbase]
        | cons front rest =>
          rw [readMetadata_valid_picture ext self1 error1 buf t front rest hpath hvalid htag
            hpic, getValue_setValue_ne _ _ _ _ (by decide), hxiph, hbase]

/-- Witness for claim C6: two sample objects with different earlier contents read the
sample song. -/
theorem readMetadata_replaces_contents_witness :
    (sampleExternals.openFile "/music/song.ogg" true).isValid = true ∧
    (ReadMetadata sampleExternals (sampleMetadata "file:///music/song.ogg") true).self.mMetadata =
      (ReadMetadata sampleExternals
        { mURL := "file:///music/song.ogg", mMetadata := []
          mChangedMetadata := [(Key.named "Artist", Value.string "B")] }
        false).self.mMetadata ∧
    CFDictionaryGetValue
      (ReadMetadata sampleExternals (sampleMetadata "file:///music/song.ogg")
        true).self.mMetadata Key.kPropertiesFormatNameKey = some (Value.string "Ogg Vorbis") :=
  ⟨by decide,
    (readMetadata_replaces_contents sampleExternals (sampleMetadata "file:///music/song.ogg")
      { mURL := "file:///music/song.ogg", mMetadata := []
        mChangedMetadata := [(Key.named "Artist", Value.string "B")] }
      true false "/music/song.ogg" rfl (by decide) (by decide)).2.2.1,
    (readMetadata_replaces_contents sampleExternals (sampleMetadata "file:///music/song.ogg")
      { mURL := "file:///music/song.ogg", mMetadata := []
        mChangedMetadata := [(Key.named "Artist", Value.string "B")] }
      true false "/music/song.ogg" rfl (by decide) (by decide)).2.2.2.2.2.2
      sample_addAudioProperties_keeps_formatName sample_addXiphComment_keeps_formatName⟩

/-- Claim C7: on a valid container whose comment block has a non-empty list of
`METADATA_BLOCK_PICTURE` values, the front-cover entry stored by `ReadMetadata` is the data
of the picture parsed from the base64 decoding of the first value; a second read, of a
comment block with the same first value and any other later values, stores the same
front-cover entry; and when the field is absent the base dictionary is the one left by
`AddXiphCommentToDictionary`, the picture step storing nothing. -/
theorem frontCover_from_first_picture_block (ext : Externals) (self : AudioMetadata)
    (error : Bool) (buf : String) (t : XiphComment)
    (hpath : ext.CFURLGetFileSystemRepresentation self.mURL = some buf)
    (hvalid : (ext.openFile buf true).isValid = true)
    (htag : (ext.openFile buf true).tag = some t) :
    (∀ front rest, t.fieldListMap.lookup "METADATA_BLOCK_PICTURE" = some (front :: rest) →
      CFDictionaryGetValue (ReadMetadata ext self error).self.mMetadata
          Key.kAlbumArtFrontCoverKey =
        some (Value.data (Picture.new.parse (DecodeBase64 (dataUTF8 front))).2.data) ∧
      ∀ (ext2 : Externals) (self2 : AudioMetadata) (error2 : Bool) (buf2 : String)
        (t2 : XiphComment) (rest2 : List String),
        ext2.CFURLGetFileSystemRepresentation self2.mURL = some buf2 →
        (ext2.openFile buf2 true).isValid = true →
        (ext2.openFile buf2 true).tag = some t2 →
        t2.fieldListMap.lookup "METADATA_BLOCK_PICTURE" = some (front :: rest2) →
        CFDictionaryGetValue (ReadMetadata ext2 self2 error2).self.mMetadata
            Key.kAlbumArtFrontCoverKey =
          CFDictionaryGetValue (ReadMetadata ext self error).self.mMetadata
            Key.kAlbumArtFrontCoverKey) ∧
    (t.fieldListMap.lookup "METADATA_BLOCK_PICTURE" = none →
      (ReadMetadata ext self error).self.mMetadata =
        ext.AddXiphCommentToDictionary (dictionaryBeforeTag ext (ext.openFile buf true)) t) := by
  refine ⟨?_, ?_⟩
  · intro front rest hpic
    have h : CFDictionaryGetValue (ReadMetadata ext self error).self.mMetadata
          Key.kAlbumArtFrontCoverKey =
        some (Value.data (Picture.new.parse (DecodeBase64 (dataUTF8 front))).2.data) := by
      rw [readMetadata_valid_picture ext self error buf t front rest hpath hvalid htag hpic,
        getValue_setValue_self]
    refine ⟨h, ?_⟩
    intro ext2 self2 error2 buf2 t2 rest2 hpath2 hvalid2 htag2 hpic2
    rw [h, readMetadata_valid_picture ext2 self2 error2 buf2 t2 front rest2 hpath2 hvalid2 htag2
      hpic2, getValue_setValue_self]
  · intro hpic
    exact readMetadata_valid_no_picture ext self error buf t hpath hvalid htag hpic

/-- Witness for claim C7: the sample song, whose comment block has two picture blocks,
and the sample file without picture block. -/
theorem frontCover_from_first_picture_block_witness :
    (sampleExternals.openFile "/music/song.ogg" true).tag = some sampleTag ∧
    sampleTag.fieldListMap.lookup "METADATA_BLOCK_PICTURE" =
      some ["AAAAAwAAAANpamsAAAAAAAAAAQAAAAEAAAABAAAAAQAAAAIJCA==", "AAAA"] ∧
    CFDictionaryGetValue
      (ReadMetadata sampleExternals (sampleMetadata "file:///music/song.ogg")
        true).self.mMetadata Key.kAlbumArtFrontCoverKey =
      some (Value.data (Picture.new.parse (DecodeBase64
        (dataUTF8 "AAAAAwAAAANpamsAAAAAAAAAAQAAAAEAAAABAAAAAQAAAAIJCA=="))).2.data) ∧
    (Picture.new.parse (DecodeBase64
      (dataUTF8 "AAAAAwAAAANpamsAAAAAAAAAAQAAAAEAAAABAAAAAQAAAAIJCA=="))).2.data = [9, 8] ∧
    (ReadMetadata sampleExternals (sampleMetadata "file:///music/plain.ogg")
        true).self.mMetadata =
      sampleExternals.AddXiphCommentToDictionary
        (dictionaryBeforeTag sampleExternals (sampleExternals.openFile "/music/plain.ogg" true))
        plainTag :=
  ⟨by decide, by decide,
    ((frontCover_from_first_picture_block sampleExternals
      (sampleMetadata "file:///music/song.ogg") true "/music/song.ogg" sampleTag (by decide)
      (by decide) (by decide)).1 "AAAAAwAAAANpamsAAAAAAAAAAQAAAAEAAAABAAAAAQAAAAIJCA=="
      ["AAAA"] (by decide)).1,
    by decide,
    (frontCover_from_first_picture_block sampleExternals
      (sampleMetadata "file:///music/plain.ogg") true "/music/plain.ogg" plainTag (by decide)
      (by decide) (by decide)).2 (by decide)⟩

/-- Claim C10 at byte vectors whose length is not a multiple of three: for the one byte
`M`, `EncodeBase64` returns no character where RFC 4648 gives `TQ==`, and decoding the
result gives no byte; for the four bytes `Man!`, `EncodeBase64` returns `TWFu`, the
encoding of the first three bytes, where RFC 4648 gives `TWFuIQ==`, and decoding the
result gives the first three bytes only. -/
theorem encodeBase64_drops_final_partial_group :
    EncodeBase64 [77] = [] ∧ rfc4648Encode [77] = [84, 81, 61, 61] ∧
    DecodeBase64 (EncodeBase64 [77]) = [] ∧
    EncodeBase64 [77, 97, 110, 33] = [84, 87, 70, 117] ∧
    rfc4648Encode [77, 97, 110, 33] = [84, 87, 70, 117, 73, 81, 61, 61] ∧
    DecodeBase64 (EncodeBase64 [77, 97, 110, 33]) = [77, 97, 110] := by
  decide

end OggVorbisMetadata
